import Mathlib

/-!
Verification of the Risk-Simulator engine (vendor risk-management platform).

This file gives a shallow embedding of the risk simulation and scoring
engine: the per-scenario impact calculators, the cascading-impact step,
the composite risk-score formula, the Monte Carlo refinement step, the
vendor risk-score formula, and the dependency-chain tracer.

Modelling conventions:
- Python `Decimal` amounts and exact arithmetic are modelled by `ℚ`.
- `math.log10` is modelled by `Real.logb 10` over `ℝ`.
- Database query results (dependent vendors, affected business
  processes) are supplied through an `Env` record, and the externally
  supplied `settings.SIMULATION_CONFIG` through a `Config` record, since
  the engine treats both as read-only inputs.
- Randomness (Monte Carlo noise, cascade-trigger draws) is injected as
  explicit lists of sampled values, mirroring the sequence of draws the
  source takes from the ambient random source.
- Python `int(x)` truncation of non-negative quantities is modelled by
  `Int.floor` followed by `Int.toNat`.
-/

namespace RiskSim

/-- A vendor record: identity, contract data and the six risk
attributes of `vendors/models.py`, plus the two derived fields. -/
structure Vendor where
  vid : Nat
  name : String
  industry : String
  contract_value : ℚ
  security_posture_score : ℤ
  data_sensitivity_level : ℤ
  service_criticality_level : ℤ
  incident_history_score : ℤ
  compliance_score : ℤ
  third_party_dependencies_score : ℤ
  overall_risk_score : ℚ
  risk_level : String
deriving DecidableEq

/-- A business process: criticality 1..5 and hourly operating cost. -/
structure BusinessProcess where
  pid : Nat
  criticality_level : Nat
  hourly_operating_cost : ℚ
deriving DecidableEq

/-- Rounding of `q` to the nearest integer, ties to even, as Python
`round` does on exact values. -/
def round_half_even (q : ℚ) : ℤ :=
  let f := ⌊q⌋
  let r := q - f
  if r < 1/2 then f
  else if 1/2 < r then f + 1
  else if f % 2 = 0 then f else f + 1

/-- Rounding to 3 decimal places, as `round(x, 3)` in
`Vendor.calculate_risk_score`. -/
def round3 (q : ℚ) : ℚ := (round_half_even (q * 1000) : ℚ) / 1000

/-- The risk-level banding applied to the rounded overall risk score at
the end of `Vendor.calculate_risk_score` in `vendors/models.py`. -/
def risk_level_band (score : ℚ) : String :=
  if score ≤ 25 then "low"
  else if score ≤ 50 then "medium"
  else if score ≤ 75 then "high"
  else "critical"

/-- Embedding of `Vendor.calculate_risk_score` from `vendors/models.py`:
normalizes the 1..5 attributes to a 0..100 scale, combines the weighted
base score, applies the compliance mitigation factor, rounds to 3
decimals and re-bands the risk level. Returns the updated vendor. -/
def Vendor.calculate_risk_score (v : Vendor) : Vendor :=
  let ds_normalized := ((v.data_sensitivity_level : ℚ) / 5) * 100
  let sc_normalized := ((v.service_criticality_level : ℚ) / 5) * 100
  let base_score :=
    (v.security_posture_score : ℚ) * (30/100) +
    ds_normalized * (20/100) +
    sc_normalized * (20/100) +
    (100 - (v.incident_history_score : ℚ)) * (15/100) +
    (v.third_party_dependencies_score : ℚ) * (15/100)
  let compliance_reduction := 1 - (v.compliance_score : ℚ) / 100
  let score := round3 (base_score * compliance_reduction)
  { v with overall_risk_score := score, risk_level := risk_level_band score }

/-- Modelled from the specification wording of section 4.3: the vendor
overall risk score is security_posture_score×0.30 +
normalized(data_sensitivity)×0.20 + normalized(service_criticality)×0.20
+ (100−incident_history_score)×0.15 + third_party×0.15, multiplied by
(1 − compliance_score/100) and rounded to 3 decimals. Used to compare
the specification formula against the source embedding. -/
def overall_risk_score_spec (v : Vendor) : ℚ :=
  round3 ((
    (v.security_posture_score : ℚ) * (30/100) +
    ((v.data_sensitivity_level : ℚ) / 5 * 100) * (20/100) +
    ((v.service_criticality_level : ℚ) / 5 * 100) * (20/100) +
    (100 - (v.incident_history_score : ℚ)) * (15/100) +
    (v.third_party_dependencies_score : ℚ) * (15/100)) *
    (1 - (v.compliance_score : ℚ) / 100))

/-- Embedding of `RiskScoreCalculator.categorize_risk_score` from
`simulations/utils.py`: greater-or-equal thresholds 75/50/25. -/
def categorize_risk_score (score : ℚ) : String :=
  if 75 ≤ score then "critical"
  else if 50 ≤ score then "high"
  else if 25 ≤ score then "medium"
  else "low"

/-- An entry of a traced dependency chain: vendor id, depth, and the
depth-decayed impact multiplier. -/
abbrev ChainEntry := Nat × Nat × ℚ

/-- Inner loop of `CascadeAnalyzer.trace_dependency_chain`: iterates the
dependent-vendor ids of the current vendor, skipping ids already in the
visited set, recursing through `recur` (the tracer at the next depth
budget), and merging the sub-chain with depth shifted by one and the
multiplier decayed by 0.8, excluding the head entry of the dependent
vendor itself. The visited set is threaded through, mirroring the
mutable Python set shared across the recursion. -/
def trace_deps (recur : Nat → List Nat → List ChainEntry × List Nat) :
    List Nat → List Nat → List ChainEntry × List Nat
  | [], visited => ([], visited)
  | d :: rest, visited =>
    if d ∈ visited then trace_deps recur rest visited
    else
      let sub := recur d visited
      let merged : List ChainEntry :=
        (d, 1, (8/10 : ℚ)) ::
          (sub.1.filter (fun e => e.1 ≠ d)).map
            (fun e => (e.1, e.2.1 + 1, e.2.2 * (8/10)))
      let more := trace_deps recur rest sub.2
      (merged ++ more.1, more.2)

/-- Embedding of `CascadeAnalyzer.trace_dependency_chain` from
`simulations/utils.py`. The graph `g` maps a vendor id to the ids of
its dependent vendors. Returns the chain together with the final
visited set; an already-visited vendor or an exhausted depth budget
yields an empty chain. -/
def trace_dependency_chain (g : Nat → List Nat) :
    Nat → Nat → List Nat → List ChainEntry × List Nat
  | 0, _, visited => ([], visited)
  | md + 1, v, visited =>
    if v ∈ visited then ([], visited)
    else
      let sub := trace_deps (trace_dependency_chain g md) (g v) (v :: visited)
      ((v, 0, (1 : ℚ)) :: sub.1, sub.2)

/-- One recorded cascading impact on a dependent vendor, as stored in
`cascading_vendor_impacts`. -/
structure CascadeImpact where
  vendor_id : Nat
  vendor_name : String
  impact : ℚ
  reason : String
deriving DecidableEq

/-- The Monte Carlo output recorded on the result. The model keeps the
iteration count, the mean, and the stored sample of the distribution
(the source additionally derives further summary statistics such as
percentiles from the same outcomes array). -/
structure MonteCarloOutput where
  iterations : Nat
  mean : ℚ
  distribution : List ℚ
deriving DecidableEq

/-- The in-memory `self.results` dictionary of `SimulationEngine`.
The free-form `impact_breakdown` explanation document is not modelled;
every other key is a field here. -/
structure Results where
  direct_costs : ℚ
  operational_costs : ℚ
  regulatory_costs : ℚ
  reputational_costs : ℚ
  downtime_hours : ℚ
  productivity_loss_percentage : ℚ
  customers_affected : Nat
  estimated_recovery_time_hours : ℚ
  recovery_complexity : String
  cascading_vendor_impacts : List CascadeImpact
  total_cascading_impact : ℚ
  affected_process_ids : List Nat
  monte_carlo_results : Option MonteCarloOutput
deriving DecidableEq

/-- The initial `self.results` set up in `SimulationEngine.__init__`. -/
def init_results : Results where
  direct_costs := 0
  operational_costs := 0
  regulatory_costs := 0
  reputational_costs := 0
  downtime_hours := 0
  productivity_loss_percentage := 0
  customers_affected := 0
  estimated_recovery_time_hours := 0
  recovery_complexity := "medium"
  cascading_vendor_impacts := []
  total_cascading_impact := 0
  affected_process_ids := []
  monte_carlo_results := none

/-- The externally supplied `settings.SIMULATION_CONFIG` entries the
engine reads. `CHURN_RATES` is a partial industry map; recovery-time
multipliers are keyed by scenario type. -/
structure Config where
  PER_RECORD_BREACH_COST : ℚ
  GDPR_PENALTY_PER_RECORD : ℚ
  HIPAA_PENALTY_PER_RECORD : ℚ
  CHURN_RATES : String → Option ℚ
  RECOVERY_TIME_MULTIPLIERS : String → ℚ

/-- The scenario `parameters` dictionary of a Simulation. Absent keys
are `none`; the calculator applies the documented defaults. -/
structure Params where
  records_compromised : Option Nat := none
  data_types : Option (List String) := none
  detection_time_hours : Option ℚ := none
  breach_vector : Option String := none
  ransom_amount : Option ℚ := none
  downtime_hours : Option ℚ := none
  encryption_scope : Option String := none
  backup_available : Option Bool := none
  duration_hours : Option ℚ := none
  disruption_cause : Option String := none
  customer_impact_percentage : Option ℚ := none
  affected_downstream_count : Option Nat := none
  detection_delay_days : Option ℚ := none
  compromise_method : Option String := none
  initial_failure_type : Option String := none
  cascade_probability : Option ℚ := none

/-- The data-store reads the engine performs: the target vendor, the
result of the two dependency-edge queries on it, and the business
processes of the organization that depend on it. -/
structure Env where
  vendor : Vendor
  dependent_vendors : List Vendor
  dependency_of : List Vendor
  affected_processes : List BusinessProcess

namespace SimulationEngine

/-- Embedding of `SimulationEngine._simulate_data_breach`. -/
def simulate_data_breach (cfg : Config) (env : Env) (p : Params)
    (r : Results) : Results :=
  let records := p.records_compromised.getD 10000
  let data_types := p.data_types.getD ["PII"]
  let detection_time_hours := p.detection_time_hours.getD 72
  let base_incident_cost : ℚ := 50000
  let per_record_cost := cfg.PER_RECORD_BREACH_COST
  let direct := base_incident_cost + (records : ℚ) * per_record_cost
  let reg_gdpr : ℚ :=
    if "PII" ∈ data_types ∨ "financial" ∈ data_types then
      (records : ℚ) * cfg.GDPR_PENALTY_PER_RECORD
    else 0
  let reg_hipaa : ℚ :=
    if "healthcare" ∈ data_types then
      (records : ℚ) * cfg.HIPAA_PENALTY_PER_RECORD
    else 0
  let churn_rate := (cfg.CHURN_RATES env.vendor.industry.toLower).getD (15/100)
  let customers_affected := (⌊(records : ℚ) * (1/10)⌋).toNat
  let customers_lost := (⌊(customers_affected : ℚ) * churn_rate⌋).toNat
  let avg_customer_value : ℚ := 500
  let response_hours := detection_time_hours + 48
  let hourly_cost : ℚ := 250
  { r with
    direct_costs := direct
    regulatory_costs := reg_gdpr + reg_hipaa
    reputational_costs := (customers_lost : ℚ) * avg_customer_value
    customers_affected := customers_affected
    operational_costs := response_hours * hourly_cost
    downtime_hours := response_hours * (3/10)
    estimated_recovery_time_hours :=
      response_hours * cfg.RECOVERY_TIME_MULTIPLIERS "data_breach"
    recovery_complexity := if 50000 < records then "high" else "medium"
    affected_process_ids := env.affected_processes.map (fun pr => pr.pid) }

/-- Embedding of `SimulationEngine._simulate_ransomware`. -/
def simulate_ransomware (cfg : Config) (env : Env) (p : Params)
    (r : Results) : Results :=
  let ransom_amount := p.ransom_amount.getD 500000
  let downtime_hours := p.downtime_hours.getD 168
  let encryption_scope := p.encryption_scope.getD "full"
  let backup_available := p.backup_available.getD true
  let direct : ℚ :=
    if ¬ backup_available then ransom_amount * (3/10) else 100000
  let total_hourly_cost :=
    (env.affected_processes.map (fun pr => pr.hourly_operating_cost)).sum
  let scope_multiplier : ℚ := if encryption_scope = "full" then 1 else 1/2
  let recovery_multiplier : ℚ := if backup_available then 1/2 else 2
  { r with
    direct_costs := direct
    operational_costs := total_hourly_cost * downtime_hours * scope_multiplier
    downtime_hours := downtime_hours
    productivity_loss_percentage :=
      if encryption_scope = "full" then 80 else 40
    estimated_recovery_time_hours :=
      downtime_hours * recovery_multiplier *
        cfg.RECOVERY_TIME_MULTIPLIERS "ransomware"
    recovery_complexity := if ¬ backup_available then "very_high" else "high"
    affected_process_ids := env.affected_processes.map (fun pr => pr.pid)
    regulatory_costs := if ¬ backup_available then 250000 else r.regulatory_costs
    reputational_costs := 500000 }

/-- Embedding of `SimulationEngine._simulate_service_disruption`. -/
def simulate_service_disruption (cfg : Config) (env : Env) (p : Params)
    (r : Results) : Results :=
  let duration_hours := p.duration_hours.getD 24
  let disruption_cause := p.disruption_cause.getD "infrastructure_failure"
  let customer_impact_percentage := p.customer_impact_percentage.getD 50
  let total_impact :=
    (env.affected_processes.map (fun pr =>
      pr.hourly_operating_cost * duration_hours *
        ((pr.criticality_level : ℚ) / 5))).sum
  let base_cost : ℚ := 25000
  let complexity_multiplier : ℚ :=
    if disruption_cause = "cyber_attack" then 3/2 else 1
  let sla_penalty := env.vendor.contract_value * (5/100)
  { r with
    operational_costs := total_impact
    direct_costs := base_cost * complexity_multiplier
    downtime_hours := duration_hours
    productivity_loss_percentage := customer_impact_percentage
    estimated_recovery_time_hours :=
      duration_hours * cfg.RECOVERY_TIME_MULTIPLIERS "service_disruption"
    recovery_complexity := "medium"
    regulatory_costs := sla_penalty
    reputational_costs :=
      if 70 < customer_impact_percentage then 200000
      else if 40 < customer_impact_percentage then 100000
      else 50000
    affected_process_ids := env.affected_processes.map (fun pr => pr.pid) }

/-- Embedding of `SimulationEngine._simulate_supply_chain_compromise`. -/
def simulate_supply_chain_compromise (cfg : Config) (env : Env) (p : Params)
    (r : Results) : Results :=
  let detection_delay_days := p.detection_delay_days.getD 180
  let exposure_hours := detection_delay_days * 24
  { r with
    direct_costs := 1000000
    operational_costs := 500000
    regulatory_costs := 300000
    reputational_costs := 2000000
    downtime_hours := exposure_hours * (1/10)
    estimated_recovery_time_hours :=
      720 * cfg.RECOVERY_TIME_MULTIPLIERS "supply_chain"
    recovery_complexity := "very_high"
    affected_process_ids := env.affected_processes.map (fun pr => pr.pid) }

/-- Embedding of `SimulationEngine._calculate_vendor_cascade_impact`:
20% of the contract value, scaled by the risk-level multiplier with
default 1.0 for an unrecognized level. -/
def calculate_vendor_cascade_impact (v : Vendor) : ℚ :=
  let multiplier : ℚ :=
    if v.risk_level = "low" then 1/2
    else if v.risk_level = "medium" then 1
    else if v.risk_level = "high" then 3/2
    else if v.risk_level = "critical" then 2
    else 1
  v.contract_value * (20/100) * multiplier

/-- The risk-level multiplier table of
`_calculate_vendor_cascade_impact`, exposed on its own. -/
def risk_multiplier (risk_level : String) : ℚ :=
  if risk_level = "low" then 1/2
  else if risk_level = "medium" then 1
  else if risk_level = "high" then 3/2
  else if risk_level = "critical" then 2
  else 1

/-- Baseline-failure dispatch at the start of
`SimulationEngine._simulate_multi_vendor_failure`: data_breach and
ransomware are recognized, anything else falls through to the
service-disruption calculator. -/
def multi_vendor_baseline (cfg : Config) (env : Env) (p : Params)
    (r : Results) : Results :=
  let initial_failure_type := p.initial_failure_type.getD "data_breach"
  if initial_failure_type = "data_breach" then
    simulate_data_breach cfg env p r
  else if initial_failure_type = "ransomware" then
    simulate_ransomware cfg env p r
  else
    simulate_service_disruption cfg env p r

/-- Embedding of `SimulationEngine._simulate_multi_vendor_failure`.
`draws_dep` and `draws_up` are the uniform random draws consumed while
iterating the dependent and depending vendor sets. -/
def simulate_multi_vendor_failure (cfg : Config) (env : Env) (p : Params)
    (r : Results) (draws_dep draws_up : List ℚ) : Results :=
  let cascade_probability := p.cascade_probability.getD (6/10)
  let r1 := multi_vendor_baseline cfg env p r
  let cascade1 :=
    ((env.dependent_vendors.zip draws_dep).filter
      (fun x => x.2 < cascade_probability)).map
      (fun x => CascadeImpact.mk x.1.vid x.1.name
        (calculate_vendor_cascade_impact x.1) "dependency_failure")
  let cascade2 :=
    ((env.dependency_of.zip draws_up).filter
      (fun x => x.2 < cascade_probability * (8/10))).map
      (fun x => CascadeImpact.mk x.1.vid x.1.name
        (calculate_vendor_cascade_impact x.1) "upstream_failure")
  let cascade_impacts := cascade1 ++ cascade2
  let total_cascade := (cascade_impacts.map (fun c => c.impact)).sum
  { r1 with
    cascading_vendor_impacts := cascade_impacts
    total_cascading_impact := total_cascade
    direct_costs := r1.direct_costs * (3/2)
    operational_costs := r1.operational_costs * (3/2)
    recovery_complexity := "very_high" }

/-- Embedding of `SimulationEngine._calculate_cascading_impacts`: for
multi_vendor the step returns immediately; otherwise it records one
impact per direct dependent vendor with reason "direct_dependency" and
sums them into `total_cascading_impact`. -/
def calculate_cascading_impacts (scenario_type : String) (env : Env)
    (r : Results) : Results :=
  if scenario_type = "multi_vendor" then r
  else
    let cascade_impacts := env.dependent_vendors.map (fun dv =>
      CascadeImpact.mk dv.vid dv.name
        (calculate_vendor_cascade_impact dv) "direct_dependency")
    let total_cascade := (cascade_impacts.map (fun c => c.impact)).sum
    { r with
      cascading_vendor_impacts := cascade_impacts
      total_cascading_impact := total_cascade }

/-- The five-bucket total the engine computes both in
`_calculate_risk_score` and in `_save_results`. -/
def total_financial (r : Results) : ℚ :=
  r.direct_costs + r.operational_costs + r.regulatory_costs +
    r.reputational_costs + r.total_cascading_impact

/-- The financial component of `_calculate_risk_score`: logarithmic in
the five-bucket total when it is positive, 0 otherwise. -/
noncomputable def financial_score (tf : ℚ) : ℝ :=
  if 0 < tf then
    min 100 (30 + 20 * Real.logb 10 ((tf : ℝ) / 100000))
  else 0

/-- The recovery-complexity component table of
`_calculate_risk_score`, default 10 for an unrecognized tier. -/
def complexity_score (c : String) : ℚ :=
  if c = "low" then 5
  else if c = "medium" then 10
  else if c = "high" then 15
  else if c = "very_high" then 20
  else 10

/-- Embedding of `SimulationEngine._calculate_risk_score`: financial
component plus downtime component `min 25 (downtime/10)` plus
complexity component plus `vendor.overall_risk_score / 4`, the sum
clamped above at 100. -/
noncomputable def calculate_risk_score (r : Results)
    (vendor_risk : ℚ) : ℝ :=
  let fin := financial_score (total_financial r)
  let downtime : ℝ := min 25 ((r.downtime_hours : ℝ) / 10)
  let complexity : ℝ := (complexity_score r.recovery_complexity : ℝ)
  let vendor_component : ℝ := (vendor_risk : ℝ) / 4
  min 100 (fin + downtime + complexity + vendor_component)

/-- The Monte Carlo clipping of one noise sample to the ±30% band,
`max(0.7, min(1.3, variation))`. -/
def clip_variation (v : ℚ) : ℚ := max (7/10) (min (13/10) v)

/-- The baseline `_run_monte_carlo_simulation` stores before sampling:
the sum of the four cost buckets (the cascading impact is not
included). -/
def monte_carlo_baseline (r : Results) : ℚ :=
  r.direct_costs + r.operational_costs + r.regulatory_costs +
    r.reputational_costs

/-- The sampled outcomes of the Monte Carlo loop: one clipped noise
sample times the baseline per iteration. -/
def monte_carlo_outcomes (r : Results) (variations : List ℚ) : List ℚ :=
  variations.map (fun v => monte_carlo_baseline r * clip_variation v)

/-- Arithmetic mean of a list of rationals. -/
def list_mean (xs : List ℚ) : ℚ := xs.sum / xs.length

/-- Embedding of `SimulationEngine._run_monte_carlo_simulation`:
computes the outcome distribution from the injected noise samples and
stores the Monte Carlo output, keeping the first 100 outcomes as the
recorded distribution sample. Only `monte_carlo_results` is assigned. -/
def run_monte_carlo (r : Results) (variations : List ℚ) : Results :=
  let dist := monte_carlo_outcomes r variations
  { r with
    monte_carlo_results := some
      (MonteCarloOutput.mk variations.length (list_mean dist)
        (dist.take 100)) }

/-- The persisted `SimulationResult` row written by `_save_results`. -/
structure SimulationResultRec where
  direct_costs : ℚ
  operational_costs : ℚ
  regulatory_costs : ℚ
  reputational_costs : ℚ
  total_financial_impact : ℚ
  downtime_hours : ℚ
  productivity_loss_percentage : ℚ
  customers_affected : Nat
  estimated_recovery_time_hours : ℚ
  recovery_complexity : String
  cascading_vendor_impacts : List CascadeImpact
  total_cascading_impact : ℚ
  risk_score : ℝ
  monte_carlo_results : Option MonteCarloOutput

/-- Embedding of `SimulationEngine._save_results`: the persisted
`total_financial_impact` is recomputed as the sum of the four cost
buckets plus the cascading total; every other field is copied from the
in-memory results. -/
def save_results (r : Results) (risk : ℝ) : SimulationResultRec where
  direct_costs := r.direct_costs
  operational_costs := r.operational_costs
  regulatory_costs := r.regulatory_costs
  reputational_costs := r.reputational_costs
  total_financial_impact :=
    r.direct_costs + r.operational_costs + r.regulatory_costs +
      r.reputational_costs + r.total_cascading_impact
  downtime_hours := r.downtime_hours
  productivity_loss_percentage := r.productivity_loss_percentage
  customers_affected := r.customers_affected
  estimated_recovery_time_hours := r.estimated_recovery_time_hours
  recovery_complexity := r.recovery_complexity
  cascading_vendor_impacts := r.cascading_vendor_impacts
  total_cascading_impact := r.total_cascading_impact
  risk_score := risk
  monte_carlo_results := r.monte_carlo_results

/-- Embedding of `SimulationResult.calculate_totals` from
`simulations/models.py`: recomputes `total_financial_impact` from the
five stored fields. -/
def calculate_totals (sr : SimulationResultRec) : SimulationResultRec :=
  { sr with
    total_financial_impact :=
      sr.direct_costs + sr.operational_costs + sr.regulatory_costs +
        sr.reputational_costs + sr.total_cascading_impact }

/-- The scenario-type dispatch of `SimulationEngine.execute`: the five
recognized types run their calculator, anything else raises
`ValueError` with the unknown type interpolated into the message. -/
def dispatch_scenario (scenario_type : String) (cfg : Config) (env : Env)
    (p : Params) (r : Results) (draws_dep draws_up : List ℚ) :
    Except String Results :=
  if scenario_type = "data_breach" then
    .ok (simulate_data_breach cfg env p r)
  else if scenario_type = "ransomware" then
    .ok (simulate_ransomware cfg env p r)
  else if scenario_type = "service_disruption" then
    .ok (simulate_service_disruption cfg env p r)
  else if scenario_type = "supply_chain" then
    .ok (simulate_supply_chain_compromise cfg env p r)
  else if scenario_type = "multi_vendor" then
    .ok (simulate_multi_vendor_failure cfg env p r draws_dep draws_up)
  else
    .error ("Unknown scenario type: " ++ scenario_type)

/-- The terminal state of one execution: the Simulation status, its
recorded error message, and the persisted result row if any. -/
structure SimState where
  status : String
  error_message : String
  saved_result : Option SimulationResultRec

/-- Embedding of `SimulationEngine.execute`: dispatch on the scenario
type, then the generic cascading-impact step, the risk score, the
optional Monte Carlo refinement, and the result write; a raised error
leaves no saved result, sets the status to failed, and records the
message verbatim. -/
noncomputable def execute (scenario_type : String) (cfg : Config)
    (env : Env) (p : Params) (use_monte_carlo : Bool)
    (variations draws_dep draws_up : List ℚ) : SimState :=
  match dispatch_scenario scenario_type cfg env p init_results
      draws_dep draws_up with
  | .error msg => SimState.mk "failed" msg none
  | .ok r0 =>
    let r1 := calculate_cascading_impacts scenario_type env r0
    let risk := calculate_risk_score r1 env.vendor.overall_risk_score
    let r2 := if use_monte_carlo then run_monte_carlo r1 variations else r1
    SimState.mk "completed" "" (some (save_results r2 risk))

end SimulationEngine

open SimulationEngine

/-! Concrete fixtures used by witnesses and counterexamples. -/

/-- A vendor with the attribute values of the worked example in the
specification: security_posture 80, data_sensitivity 5,
service_criticality 5, incident_history 100, third_party 50,
compliance 50. -/
def vendor_ex : Vendor where
  vid := 1
  name := "ExampleVendor"
  industry := "finance"
  contract_value := 100000
  security_posture_score := 80
  data_sensitivity_level := 5
  service_criticality_level := 5
  incident_history_score := 100
  compliance_score := 50
  third_party_dependencies_score := 50
  overall_risk_score := 0
  risk_level := "medium"

/-- A dependent vendor with contract value 1000 and high risk level. -/
def vendor_dep_ex : Vendor :=
  { vendor_ex with
    vid := 2
    name := "DepVendor"
    contract_value := 1000
    risk_level := "high" }

/-- A business process fixture. -/
def proc_ex : BusinessProcess where
  pid := 10
  criticality_level := 3
  hourly_operating_cost := 100

/-- A configuration fixture with the calibration rates the engine
reads. -/
def cfg_ex : Config where
  PER_RECORD_BREACH_COST := 150
  GDPR_PENALTY_PER_RECORD := 4
  HIPAA_PENALTY_PER_RECORD := 250
  CHURN_RATES := fun _ => none
  RECOVERY_TIME_MULTIPLIERS := fun _ => 1

/-- An environment fixture: one dependent vendor, no depending vendors,
one affected business process. -/
def env_ex : Env where
  vendor := vendor_ex
  dependent_vendors := [vendor_dep_ex]
  dependency_of := []
  affected_processes := [proc_ex]

/-- A parameters fixture with every scenario parameter absent, so that
the calculators use their documented defaults. -/
def params_ex : Params := {}

/-- A parameters fixture selecting an unrecognized nested failure type
for the multi_vendor scenario. -/
def params_mv_ex : Params := { initial_failure_type := some "supply_chain" }

/-- In-memory results holding a one-dollar direct cost and nothing
else: a valid non-negative cost combination on which the risk-score
formula goes negative. -/
def c2_results : Results := { init_results with direct_costs := 1 }

/-- In-memory results with a nonzero cascading total, separating the
Monte Carlo baseline from the five-bucket financial total. -/
def c4_results : Results :=
  { init_results with direct_costs := 1000, total_cascading_impact := 100 }

/-- The two-vendor dependency cycle 0 → 1 → 0. -/
def cycle_graph : Nat → List Nat :=
  fun n => if n = 0 then [1] else if n = 1 then [0] else []

/-! Claim theorems. -/

/-- Claim C1: for every executed simulation, the persisted
`total_financial_impact` equals `direct_costs + operational_costs +
regulatory_costs + reputational_costs + total_cascading_impact` with
exact decimal equality, both as written by `_save_results` and as
recomputed by `SimulationResult.calculate_totals`; it is recomputed
from the five inputs, never stored independently. -/
theorem claim1_total_financial_impact_recomputed :
    (∀ (r : Results) (risk : ℝ),
      (save_results r risk).total_financial_impact =
        (save_results r risk).direct_costs +
        (save_results r risk).operational_costs +
        (save_results r risk).regulatory_costs +
        (save_results r risk).reputational_costs +
        (save_results r risk).total_cascading_impact) ∧
    (∀ sr : SimulationResultRec,
      (calculate_totals sr).total_financial_impact =
        (calculate_totals sr).direct_costs +
        (calculate_totals sr).operational_costs +
        (calculate_totals sr).regulatory_costs +
        (calculate_totals sr).reputational_costs +
        (calculate_totals sr).total_cascading_impact) := by
  exact ⟨fun r risk => rfl, fun sr => rfl⟩

/-- Claim C5: the vendor overall risk score follows the weighted
formula with compliance mitigation and 3-decimal rounding exactly as
the specification states it, the risk level is banded on the rounded
score with thresholds 25/50/75 (less-or-equal), and the worked example
(security 80, sensitivity 5, criticality 5, incident history 100,
third party 50, compliance 50) yields 35.75 and level "medium". -/
theorem claim5_vendor_risk_score_formula :
    (∀ v : Vendor,
      (Vendor.calculate_risk_score v).overall_risk_score =
        overall_risk_score_spec v) ∧
    (∀ v : Vendor,
      (Vendor.calculate_risk_score v).risk_level =
        risk_level_band ((Vendor.calculate_risk_score v).overall_risk_score)) ∧
    (Vendor.calculate_risk_score vendor_ex).overall_risk_score = 35.75 ∧
    (Vendor.calculate_risk_score vendor_ex).risk_level = "medium" := by
  have hscore : (Vendor.calculate_risk_score vendor_ex).overall_risk_score
      = 35.75 := by
    show round3 _ = 35.75
    rw [show ((vendor_ex.security_posture_score : ℚ) * (30/100) +
        (vendor_ex.data_sensitivity_level : ℚ) / 5 * 100 * (20/100) +
        (vendor_ex.service_criticality_level : ℚ) / 5 * 100 * (20/100) +
        (100 - (vendor_ex.incident_history_score : ℚ)) * (15/100) +
        (vendor_ex.third_party_dependencies_score : ℚ) * (15/100)) *
        (1 - (vendor_ex.compliance_score : ℚ) / 100) = 143/4 by
      norm_num [vendor_ex]]
    unfold round3 round_half_even
    rw [show (143/4 : ℚ) * 1000 = ((35750 : ℤ) : ℚ) by norm_num]
    rw [Int.floor_intCast]
    norm_num
  have hlevel : (Vendor.calculate_risk_score vendor_ex).risk_level =
      risk_level_band
        ((Vendor.calculate_risk_score vendor_ex).overall_risk_score) := rfl
  refine ⟨fun v => rfl, fun v => rfl, hscore, ?_⟩
  rw [hlevel, hscore]
  norm_num [risk_level_band]

/-- Claim C6: for every scenario type other than multi_vendor, the
generic cascading step records exactly one impact per direct dependent
vendor, equal to that vendor contract value × 0.20 × the risk-level
multiplier, with reason "direct_dependency", and sums them into
`total_cascading_impact`; the multiplier table is low 0.5, medium 1.0,
high 1.5, critical 2.0; for multi_vendor the generic step returns the
results unchanged. -/
theorem claim6_generic_cascade_step :
    (∀ (scenario_type : String) (env : Env) (r : Results),
      scenario_type ≠ "multi_vendor" →
      calculate_cascading_impacts scenario_type env r =
        { r with
          cascading_vendor_impacts := env.dependent_vendors.map (fun dv =>
            CascadeImpact.mk dv.vid dv.name
              (dv.contract_value * (20/100) * risk_multiplier dv.risk_level)
              "direct_dependency")
          total_cascading_impact := (env.dependent_vendors.map (fun dv =>
            dv.contract_value * (20/100) *
              risk_multiplier dv.risk_level)).sum }) ∧
    (risk_multiplier "low" = 1/2 ∧ risk_multiplier "medium" = 1 ∧
      risk_multiplier "high" = 3/2 ∧ risk_multiplier "critical" = 2) ∧
    (∀ (env : Env) (r : Results),
      calculate_cascading_impacts "multi_vendor" env r = r) := by
  refine ⟨?_, ⟨rfl, rfl, rfl, rfl⟩, fun env r => rfl⟩
  intro scenario_type env r h
  unfold calculate_cascading_impacts
  rw [if_neg h]
  simp only [List.map_map]
  rfl

/-- Witness for claim C6 at a concrete scenario type and environment. -/
theorem claim6_witness :
    (calculate_cascading_impacts "data_breach" env_ex
        init_results).total_cascading_impact =
      (env_ex.dependent_vendors.map (fun dv =>
        dv.contract_value * (20/100) * risk_multiplier dv.risk_level)).sum := by
  rw [claim6_generic_cascade_step.1 "data_breach" env_ex init_results
    (by decide)]

/-- Claim C9: in the multi_vendor scenario, every value of
`initial_failure_type` other than "data_breach" or "ransomware"
silently computes the service-disruption baseline, and the multi_vendor
dispatch always succeeds, so an invalid nested failure type never fails
the simulation. -/
theorem claim9_multi_vendor_fallback :
    (∀ (cfg : Config) (env : Env) (p : Params) (r : Results) (ift : String),
      p.initial_failure_type = some ift →
      ift ≠ "data_breach" → ift ≠ "ransomware" →
      multi_vendor_baseline cfg env p r =
        simulate_service_disruption cfg env p r) ∧
    (∀ (cfg : Config) (env : Env) (p : Params) (r : Results)
      (draws_dep draws_up : List ℚ),
      dispatch_scenario "multi_vendor" cfg env p r draws_dep draws_up =
        Except.ok (simulate_multi_vendor_failure cfg env p r
          draws_dep draws_up)) := by
  constructor
  · intro cfg env p r ift hsome h1 h2
    unfold multi_vendor_baseline
    rw [hsome]
    simp only [Option.getD_some]
    rw [if_neg h1, if_neg h2]
  · intro cfg env p r d1 d2
    rfl

/-- Witness for claim C9: the unrecognized nested type "supply_chain"
falls through to the service-disruption calculator. -/
theorem claim9_witness :
    multi_vendor_baseline cfg_ex env_ex params_mv_ex init_results =
      simulate_service_disruption cfg_ex env_ex params_mv_ex init_results :=
  claim9_multi_vendor_fallback.1 cfg_ex env_ex params_mv_ex init_results
    "supply_chain" rfl (by decide) (by decide)

/-- Claim C10: the two risk-band functions disagree exactly at the
boundary scores 25, 50 and 75 (`categorize_risk_score` uses
greater-or-equal thresholds, the vendor banding uses less-or-equal
thresholds) and agree on every other score. -/
theorem claim10_band_boundary_disagreement :
    (categorize_risk_score 25 = "medium" ∧ risk_level_band 25 = "low" ∧
     categorize_risk_score 50 = "high" ∧ risk_level_band 50 = "medium" ∧
     categorize_risk_score 75 = "critical" ∧ risk_level_band 75 = "high") ∧
    (∀ s : ℚ, s ≠ 25 → s ≠ 50 → s ≠ 75 →
      categorize_risk_score s = risk_level_band s) := by
  constructor
  · refine ⟨?_, ?_, ?_, ?_, ?_, ?_⟩ <;>
      norm_num [categorize_risk_score, risk_level_band]
  · intro s h25 h50 h75
    unfold categorize_risk_score risk_level_band
    rcases h25.lt_or_lt with h1 | h1 <;>
      rcases h50.lt_or_lt with h2 | h2 <;>
        rcases h75.lt_or_lt with h3 | h3 <;>
          split_ifs <;> first | rfl | linarith

/-- Helper for claim C7: if every chain entry produced by `recur` has
depth at most `md`, then every entry produced by the dependent-vendor
loop has depth at most `md + 1`. -/
lemma trace_deps_depth_le (recur : Nat → List Nat → List ChainEntry × List Nat)
    (md : Nat)
    (hrec : ∀ (v : Nat) (vis : List Nat) (e : ChainEntry),
      e ∈ (recur v vis).1 → e.2.1 ≤ md) :
    ∀ (deps : List Nat) (vis : List Nat) (e : ChainEntry),
      e ∈ (trace_deps recur deps vis).1 → e.2.1 ≤ md + 1 := by
  intro deps
  induction deps with
  | nil => intro vis e he; simp [trace_deps] at he
  | cons d rest ih =>
    intro vis e he
    rw [trace_deps] at he
    by_cases hd : d ∈ vis
    · rw [if_pos hd] at he
      exact ih vis e he
    · rw [if_neg hd] at he
      simp only [List.mem_append, List.mem_cons, List.mem_map] at he
      rcases he with (he | ⟨x, hx, hxe⟩) | he
      · subst he
        exact Nat.succ_le_succ (Nat.zero_le md)
      · have hx1 : x ∈ (recur d vis).1 := List.mem_of_mem_filter hx
        have := hrec d vis x hx1
        subst hxe
        exact Nat.succ_le_succ this
      · exact ih _ e he

/-- Helper for claim C7: every entry of a traced chain has depth at
most the depth budget. -/
lemma trace_dependency_chain_depth_le (g : Nat → List Nat) :
    ∀ (md v : Nat) (vis : List Nat) (e : ChainEntry),
      e ∈ (trace_dependency_chain g md v vis).1 → e.2.1 ≤ md := by
  intro md
  induction md with
  | zero => intro v vis e he; simp [trace_dependency_chain] at he
  | succ md ih =>
    intro v vis e he
    rw [trace_dependency_chain] at he
    by_cases hv : v ∈ vis
    · rw [if_pos hv] at he
      simp at he
    · rw [if_neg hv] at he
      simp only [List.mem_cons] at he
      rcases he with he | he
      · subst he
        exact Nat.zero_le _
      · exact trace_deps_depth_le (trace_dependency_chain g md) md
          (fun v' vis' e' => ih v' vis' e') (g v) (v :: vis) e he

/-- Claim C7: the dependency-chain tracer never re-enters a vendor
already recorded in the visited set (such a call returns an empty chain
and the unchanged set), every recorded entry has depth bounded by the
depth budget, and on the two-vendor cycle 0 → 1 → 0 it terminates with
the finite chain [(0, 0, 1), (1, 1, 0.8)]. -/
theorem claim7_trace_cycle_guard :
    (∀ (g : Nat → List Nat) (md v : Nat) (visited : List Nat),
      v ∈ visited →
      trace_dependency_chain g md v visited = ([], visited)) ∧
    (∀ (g : Nat → List Nat) (md v : Nat) (visited : List Nat)
      (e : ChainEntry),
      e ∈ (trace_dependency_chain g md v visited).1 → e.2.1 ≤ md) ∧
    trace_dependency_chain cycle_graph 5 0 [] =
      ([(0, 0, (1 : ℚ)), (1, 1, (8/10 : ℚ))], [1, 0]) := by
  refine ⟨?_, trace_dependency_chain_depth_le, ?_⟩
  · intro g md v visited hv
    cases md with
    | zero => rfl
    | succ md => rw [trace_dependency_chain, if_pos hv]
  · rfl

/-- Witness for claim C7: a vendor already in the visited set is not
re-entered, and the head entry of the cycle trace respects the depth
bound. -/
theorem claim7_witness :
    trace_dependency_chain cycle_graph 3 0 [0] = ([], [0]) ∧
    ((0, 0, (1 : ℚ)) : ChainEntry).2.1 ≤ 5 :=
  ⟨claim7_trace_cycle_guard.1 cycle_graph 3 0 [0] (by simp),
    claim7_trace_cycle_guard.2.1 cycle_graph 5 0 [] (0, 0, (1 : ℚ))
      (by rw [claim7_trace_cycle_guard.2.2]; simp)⟩

/-- Claim C8: executing a simulation whose scenario type is not one of
the five recognized types fails the execution: the status transitions
to "failed", the error message records the unknown type verbatim, and
no result is saved. -/
theorem claim8_unknown_scenario_fails (scenario_type : String)
    (cfg : Config) (env : Env) (p : Params) (use_monte_carlo : Bool)
    (variations draws_dep draws_up : List ℚ)
    (h : scenario_type ∉ ["data_breach", "ransomware", "service_disruption",
      "supply_chain", "multi_vendor"]) :
    (execute scenario_type cfg env p use_monte_carlo variations
      draws_dep draws_up).status = "failed" ∧
    (execute scenario_type cfg env p use_monte_carlo variations
      draws_dep draws_up).error_message =
        "Unknown scenario type: " ++ scenario_type ∧
    (execute scenario_type cfg env p use_monte_carlo variations
      draws_dep draws_up).saved_result = none := by
  simp only [List.mem_cons, List.mem_singleton, not_or] at h
  obtain ⟨h1, h2, h3, h4, h5, -⟩ := h
  unfold execute dispatch_scenario
  rw [if_neg h1, if_neg h2, if_neg h3, if_neg h4, if_neg h5]
  exact ⟨rfl, rfl, rfl⟩

/-- Witness for claim C8 at the concrete unknown scenario type
"chaos_monkey". -/
theorem claim8_witness :
    (execute "chaos_monkey" cfg_ex env_ex params_ex false [] [] []).status =
      "failed" ∧
    (execute "chaos_monkey" cfg_ex env_ex params_ex false [] [] []
      ).error_message = "Unknown scenario type: " ++ "chaos_monkey" ∧
    (execute "chaos_monkey" cfg_ex env_ex params_ex false [] [] []
      ).saved_result = none :=
  claim8_unknown_scenario_fails "chaos_monkey" cfg_ex env_ex params_ex
    false [] [] [] (by decide)

/-- Helper: base-10 logarithm of a power of ten. -/
lemma logb_ten_pow (k : ℕ) : Real.logb 10 ((10 : ℝ) ^ k) = k := by
  rw [Real.logb_pow, Real.logb_self_eq_one (by norm_num)]
  ring

/-- Helper: the financial component at a total equal to 10^k × 100000
evaluates to the clamped value min 100 (30 + 20k). -/
lemma financial_score_pow (k : ℕ) (tf : ℚ) (htf : 0 < tf)
    (h : ((tf : ℝ) / 100000) = (10 : ℝ) ^ k) :
    financial_score tf = min 100 (30 + 20 * (k : ℝ)) := by
  unfold financial_score
  rw [if_pos htf, h, logb_ten_pow]

/-- Claim C2: on the valid non-negative input with a one-dollar direct
cost and everything else zero (downtime 0, medium complexity, vendor
risk 0), the simulation risk-score formula evaluates to −60: the
financial component is not floored at 0, so the score leaves the
documented [0, 100] range. -/
theorem claim2_negative_risk_score :
    calculate_risk_score c2_results 0 = -60 := by
  have htf : total_financial c2_results = 1 := by
    norm_num [total_financial, c2_results, init_results]
  have hfin : financial_score (total_financial c2_results) = -70 := by
    rw [htf]
    unfold financial_score
    rw [if_pos (by norm_num : (0 : ℚ) < 1)]
    rw [show (((1 : ℚ) : ℝ) / 100000) = ((10 : ℝ) ^ (5 : ℕ))⁻¹ by norm_num]
    rw [Real.logb_inv, logb_ten_pow]
    norm_num [min_def]
  have hdt : c2_results.downtime_hours = 0 := rfl
  have hcx : complexity_score c2_results.recovery_complexity = 10 := rfl
  simp only [calculate_risk_score]
  rw [hfin, hdt, hcx]
  push_cast
  norm_num [min_def]

/-- Claim C3 counterexample: the financial component at a total impact
of exactly $100K evaluates to 30, not approximately 50. -/
theorem claim3_counterexample :
    financial_score 100000 = 30 ∧ ¬ 45 ≤ financial_score 100000 := by
  have h : financial_score 100000 = 30 := by
    rw [financial_score_pow 0 100000 (by norm_num) (by norm_num)]
    norm_num [min_def]
  exact ⟨h, by rw [h]; norm_num⟩

/-- Claim C3 as amended: the financial component is
min(100, 30 + 20·log10(total/100000)) for positive totals and 0
otherwise, whose anchor set is $100K → 30, $1M → 50, $10M → 70,
$100M → 90, with the cap of 100 reached at $1B. -/
theorem claim3_financial_score_anchors :
    financial_score 100000 = 30 ∧ financial_score 1000000 = 50 ∧
    financial_score 10000000 = 70 ∧ financial_score 100000000 = 90 ∧
    financial_score 1000000000 = 100 ∧
    (∀ tf : ℚ, ¬ 0 < tf → financial_score tf = 0) := by
  refine ⟨?_, ?_, ?_, ?_, ?_, ?_⟩
  · rw [financial_score_pow 0 100000 (by norm_num) (by norm_num)]
    norm_num [min_def]
  · rw [financial_score_pow 1 1000000 (by norm_num) (by norm_num)]
    norm_num [min_def]
  · rw [financial_score_pow 2 10000000 (by norm_num) (by norm_num)]
    norm_num [min_def]
  · rw [financial_score_pow 3 100000000 (by norm_num) (by norm_num)]
    norm_num [min_def]
  · rw [financial_score_pow 4 1000000000 (by norm_num) (by norm_num)]
    norm_num [min_def]
  · intro tf h
    unfold financial_score
    rw [if_neg h]

/-- Witness for claim C3 at a non-positive total. -/
theorem claim3_witness : financial_score 0 = 0 :=
  claim3_financial_score_anchors.2.2.2.2.2 0 (by norm_num)

/-- Claim C4 counterexample: with a direct cost of 1000 and a
cascading total of 100, a noise sample of exactly 1.0 produces the
outcome 1000, not the five-bucket total 1100 the claim requires. -/
theorem claim4_counterexample :
    monte_carlo_outcomes c4_results [1] = [1000] ∧
    total_financial c4_results = 1100 ∧
    monte_carlo_outcomes c4_results [1] ≠
      [total_financial c4_results * clip_variation 1] := by
  have h1 : monte_carlo_outcomes c4_results [1] = [1000] := by
    simp only [monte_carlo_outcomes, monte_carlo_baseline, clip_variation,
      c4_results, init_results, List.map]
    norm_num [min_def, max_def]
  have h2 : total_financial c4_results = 1100 := by
    norm_num [total_financial, c4_results, init_results]
  have h3 : total_financial c4_results * clip_variation 1 = 1100 := by
    rw [h2]
    norm_num [clip_variation, min_def, max_def]
  refine ⟨h1, h2, ?_⟩
  rw [h1, h3]
  intro hc
  have : (1000 : ℚ) = 1100 := List.head_eq_of_cons_eq hc
  norm_num at this

/-- Claim C4 as amended: each sampled Monte Carlo outcome equals the
sum of the four cost buckets only (direct + operational + regulatory +
reputational, excluding the cascading total) multiplied by the noise
sample clipped to the band [0.7, 1.3]; the refinement step assigns
`monte_carlo_results` and leaves every other field of the results
unchanged. -/
theorem claim4_monte_carlo_amended :
    ∀ (r : Results) (variations : List ℚ),
      monte_carlo_outcomes r variations = variations.map (fun v =>
        (r.direct_costs + r.operational_costs + r.regulatory_costs +
          r.reputational_costs) * max (7/10) (min (13/10) v)) ∧
      (run_monte_carlo r variations).direct_costs = r.direct_costs ∧
      (run_monte_carlo r variations).operational_costs =
        r.operational_costs ∧
      (run_monte_carlo r variations).regulatory_costs =
        r.regulatory_costs ∧
      (run_monte_carlo r variations).reputational_costs =
        r.reputational_costs ∧
      (run_monte_carlo r variations).downtime_hours = r.downtime_hours ∧
      (run_monte_carlo r variations).productivity_loss_percentage =
        r.productivity_loss_percentage ∧
      (run_monte_carlo r variations).customers_affected =
        r.customers_affected ∧
      (run_monte_carlo r variations).estimated_recovery_time_hours =
        r.estimated_recovery_time_hours ∧
      (run_monte_carlo r variations).recovery_complexity =
        r.recovery_complexity ∧
      (run_monte_carlo r variations).cascading_vendor_impacts =
        r.cascading_vendor_impacts ∧
      (run_monte_carlo r variations).total_cascading_impact =
        r.total_cascading_impact ∧
      (run_monte_carlo r variations).affected_process_ids =
        r.affected_process_ids ∧
      (run_monte_carlo r variations).monte_carlo_results = some
        (MonteCarloOutput.mk variations.length
          (list_mean (monte_carlo_outcomes r variations))
          ((monte_carlo_outcomes r variations).take 100)) :=
  fun _ _ =>
    ⟨rfl, rfl, rfl, rfl, rfl, rfl, rfl, rfl, rfl, rfl, rfl, rfl, rfl, rfl⟩

/-- Witness for claim C10 at the non-boundary score 30. -/
theorem claim10_witness :
    categorize_risk_score 30 = risk_level_band 30 :=
  claim10_band_boundary_disagreement.2 30 (by norm_num) (by norm_num)
    (by norm_num)

end RiskSim
